import Mathlib

/-!
Shallow embedding of the iOS Simulator MCP server core (src/index.ts):
the session-scoped simulator registry, the lifecycle tools
(start_simulator, destroy_simulator, attach_simulator), the shutdown
sweeper (cleanupAllSimulators), the device/runtime provisioning helpers
(findDeviceType, findLatestRuntime), and the orientation-aware
coordinate transform (getEffectiveOrientation, transformFrame,
formatAXFrame, transformElementTree).

External collaborators (xcrun simctl, idb, open) are modelled by passing
their observable results as explicit parameters; JavaScript numbers are
modelled as exact rationals; the thrown-exception control flow of each
tool handler is modelled by explicit Except/branching that mirrors the
source's try/catch structure.
-/

namespace IosSimMcp

/-- The five orientation values of the `Orientation` union type. -/
inductive Orientation where
  | auto
  | portrait
  | landscape_right
  | upside_down
  | landscape_left
deriving DecidableEq, Repr

/-- A managed-simulator record, the value type of `managedSimulators`:
`{ udid, name, owned, orientation }`. -/
structure SimHandle where
  udid : String
  name : String
  owned : Bool
  orientation : Orientation
deriving DecidableEq, Repr

/-- The `managedSimulators` Map, modelled as an insertion-ordered
association list with unique keys (JS `Map` semantics). -/
abbrev Registry := List (String × SimHandle)

/-- `managedSimulators.get(id)`: first (unique) entry with the key. -/
def lookupReg (reg : Registry) (id : String) : Option SimHandle :=
  (List.find? (fun e => e.1 == id) reg).map (fun e => e.2)

/-- `managedSimulators.set(id, h)`: update in place when the key exists,
otherwise append (JS `Map.set` insertion-order semantics). -/
def insertReg (reg : Registry) (id : String) (h : SimHandle) : Registry :=
  if List.any reg (fun e => e.1 == id) then
    List.map (fun e => if e.1 == id then (id, h) else e) reg
  else reg ++ [(id, h)]

/-- `managedSimulators.delete(id)`. -/
def removeReg (reg : Registry) (id : String) : Registry :=
  List.filter (fun e => !(e.1 == id)) reg

/-- A rectangle `{x, y, width, height}` (JS numbers as exact rationals). -/
structure Frame where
  x : ℚ
  y : ℚ
  width : ℚ
  height : ℚ
deriving DecidableEq, Repr

/-- `getEffectiveOrientation`: "auto" resolves to portrait (w <= h) vs
landscape_right (w > h); any explicit setting is returned verbatim. -/
def getEffectiveOrientation (orientation : Orientation)
    (screenWidth screenHeight : ℚ) : Orientation :=
  if orientation ≠ Orientation.auto then orientation
  else if screenWidth > screenHeight then Orientation.landscape_right
  else Orientation.portrait

/-- `transformFrame`: maps a frame from the rotated logical space to
portrait space, given the root frame dimensions `screenW`/`screenH` of
the space the input frame lives in. -/
def transformFrame (frame : Frame) (orientation : Orientation)
    (screenW screenH : ℚ) : Frame :=
  match orientation with
  | Orientation.portrait => frame
  | Orientation.auto => frame
  | Orientation.landscape_right =>
      { x := frame.y
        y := screenW - frame.x - frame.width
        width := frame.height
        height := frame.width }
  | Orientation.landscape_left =>
      { x := screenH - frame.y - frame.height
        y := frame.x
        width := frame.height
        height := frame.width }
  | Orientation.upside_down =>
      { x := screenW - frame.x - frame.width
        y := screenH - frame.y - frame.height
        width := frame.width
        height := frame.height }

-- ## String primitives used by the source (modelled on the character data)

/-- Character-list containment test (`hay` contains `sub` contiguously). -/
def seqContains (sub : List Char) : List Char → Bool
  | [] => sub.isEmpty
  | c :: t => List.isPrefixOf sub (c :: t) || seqContains sub t

/-- JS `hay.includes(sub)`. -/
def strIncludesB (hay sub : String) : Bool := seqContains sub.data hay.data

/-- JS `s.toLowerCase()`. -/
def lowerStr (s : String) : String := ⟨List.map Char.toLower s.data⟩

/-- JS `s.startsWith(pre)`. -/
def strStartsWith (s pre : String) : Bool := List.isPrefixOf pre.data s.data

/-- `replace(/\s+/g, "-")` on a character list: each maximal whitespace run
becomes a single dash (`prevWs` tracks whether the previous character was
part of a whitespace run). -/
def wsReplaceAux : Bool → List Char → List Char
  | _, [] => []
  | prevWs, c :: rest =>
    if c.isWhitespace then
      (if prevWs then [] else ['-']) ++ wsReplaceAux true rest
    else c :: wsReplaceAux false rest

/-- `keyword.toLowerCase().replace(/\s+/g, "-")` from `start_simulator`. -/
def replaceWsWithDash (s : String) : String := ⟨wsReplaceAux false (lowerStr s).data⟩

/-- Substring containment as a proposition, for claims that an error message
"includes" a name or id. -/
def strIncludes (hay sub : String) : Prop := ∃ p s, hay = p ++ (sub ++ s)

-- ## Provisioning helpers (findDeviceType, findLatestRuntime)

/-- One entry of the `simctl list devicetypes -j` catalog. -/
structure DeviceTypeRecord where
  name : String
  identifier : String
deriving DecidableEq, Repr

/-- One entry of the `simctl list runtimes -j` catalog, with the fields the
source destructures: `{ name, identifier, isAvailable }`. -/
structure RuntimeRecord where
  name : String
  identifier : String
  isAvailable : Bool
deriving DecidableEq, Repr

/-- `findDeviceType`, with the external catalog passed in: case-insensitive
substring match against catalog names, first match wins; errors with the full
catalog name list when nothing matches. -/
def findDeviceType (keyword : String) (deviceTypes : List DeviceTypeRecord) :
    Except String DeviceTypeRecord :=
  let lowerKeyword := lowerStr keyword
  match List.filter (fun dt => strIncludesB (lowerStr dt.name) lowerKeyword) deviceTypes with
  | [] => Except.error ("No device type found matching \"" ++ keyword ++
      "\". Available types: " ++
      String.intercalate (", ") (List.map (fun dt => dt.name) deviceTypes))
  | m :: _ => Except.ok m

/-- `findLatestRuntime`, with the external catalog passed in: filters to
available runtimes whose name starts with "iOS" and returns the identifier of
the last filtered entry (`iosRuntimes[iosRuntimes.length - 1]`), erroring when
the filtered list is empty. -/
def findLatestRuntime (runtimes : List RuntimeRecord) : Except String String :=
  let iosRuntimes := List.filter
    (fun r => r.isAvailable && strStartsWith r.name ("iOS")) runtimes
  if h : iosRuntimes.length = 0 then
    Except.error ("No available iOS runtimes found. Install one via Xcode.")
  else
    Except.ok (iosRuntimes.get ⟨iosRuntimes.length - 1, by omega⟩).identifier

-- ## Tool plumbing shared by all handlers

/-- The `{ isError, content: [{ type: "text", text }] }` result shape of a
tool handler, reduced to its error flag and message text. -/
structure ToolResult where
  isError : Bool
  text : String
deriving DecidableEq, Repr

/-- `troubleshootingLink()`. -/
def troubleshootingLink : String :=
  "[Troubleshooting Guide](https://github.com/joshuayoes/ios-simulator-mcp/blob/main/TROUBLESHOOTING.md) | [Plain Text Guide for LLMs](https://raw.githubusercontent.com/joshuayoes/ios-simulator-mcp/refs/heads/main/TROUBLESHOOTING.md)"

/-- `errorWithTroubleshooting(message)`. -/
def errorWithTroubleshooting (message : String) : String :=
  message ++ "\n\nFor help, see the " ++ troubleshootingLink

/-- External calls a lifecycle tool can issue, for claims about which
destructive or query calls reach the collaborators. -/
inductive ExtCall where
  | shutdown (udid : String)
  | simDelete (udid : String)
  | listDevices
deriving DecidableEq, Repr

-- ## start_simulator

/-- The `AlreadyActive` message thrown by `start_simulator` when the session
already has a simulator. -/
def alreadyRunningMsg (id : String) (existing : SimHandle) : String :=
  "A simulator is already running for session \"" ++ id ++ "\": \"" ++
    existing.name ++ "\" (" ++ existing.udid ++ "). Call destroy_simulator first."

/-- The catch branch of `start_simulator`. -/
def startError (e : String) : ToolResult :=
  { isError := true
    text := errorWithTroubleshooting ("Error starting simulator: " ++ e) }

/-- `start_simulator` tool handler. External collaborator results are explicit
parameters: the device-type catalog, the runtime catalog, the outcome of
`simctl create` (the new udid on success), and the outcomes of `simctl boot`
and `open -a Simulator.app`. Any thrown error reaches the catch branch before
`managedSimulators.set`, yielding an isError result and an unchanged
registry. -/
def start_simulator (reg : Registry) (id : String) (type? : Option String)
    (deviceTypes : List DeviceTypeRecord) (runtimes : List RuntimeRecord)
    (createResult : Except String String) (bootResult : Except String Unit)
    (openResult : Except String Unit) : ToolResult × Registry :=
  match lookupReg reg id with
  | some existing => (startError (alreadyRunningMsg id existing), reg)
  | none =>
    let keyword := type?.getD ("iPhone")
    match findDeviceType keyword deviceTypes with
    | Except.error e => (startError e, reg)
    | Except.ok deviceType =>
      match findLatestRuntime runtimes with
      | Except.error e => (startError e, reg)
      | Except.ok _runtime =>
        let deviceName := id ++ "_" ++ replaceWsWithDash keyword
        match createResult with
        | Except.error e => (startError e, reg)
        | Except.ok udid =>
          match bootResult with
          | Except.error e => (startError e, reg)
          | Except.ok _ =>
            match openResult with
            | Except.error e => (startError e, reg)
            | Except.ok _ =>
              ({ isError := false
                 text := "Simulator started: \"" ++ deviceName ++ "\" (" ++
                   deviceType.name ++ ", " ++ udid ++ ")" },
               insertReg reg id
                 { udid := udid, name := deviceName, owned := true
                   orientation := Orientation.auto })

-- ## destroy_simulator

/-- The catch branch of `destroy_simulator`. -/
def destroyError (e : String) : ToolResult :=
  { isError := true
    text := errorWithTroubleshooting ("Error destroying simulator: " ++ e) }

/-- `destroy_simulator` tool handler. `shutdownResult`/`deleteResult` are the
outcomes of the two external teardown calls. A thrown teardown error reaches
the catch branch before `managedSimulators.delete(id)` runs, so the registry
entry is only removed on the all-success (or un-owned) path. -/
def destroy_simulator (reg : Registry) (id : String)
    (shutdownResult deleteResult : Except String Unit) : ToolResult × Registry :=
  match lookupReg reg id with
  | none =>
      (destroyError ("No simulator is running for session \"" ++ id ++ "\"."), reg)
  | some sim =>
    if sim.owned then
      match shutdownResult with
      | Except.error e => (destroyError e, reg)
      | Except.ok _ =>
        match deleteResult with
        | Except.error e => (destroyError e, reg)
        | Except.ok _ =>
            ({ isError := false
               text := "Simulator destroyed: \"" ++ sim.name ++ "\" (" ++
                 sim.udid ++ ")" },
             removeReg reg id)
    else
      ({ isError := false
         text := "Detached from simulator: \"" ++ sim.name ++ "\" (" ++
           sim.udid ++ ")" },
       removeReg reg id)

-- ## attach_simulator

/-- One device entry of `simctl list devices -j`, with the fields the source
reads; the per-runtime device arrays are modelled flattened in iteration
order (the source scans them in order and stops at the first udid match). -/
structure DeviceRecord where
  udid : String
  name : String
  state : String
deriving DecidableEq, Repr

/-- Hexadecimal digit test, `[0-9A-Fa-f]`. -/
def isHexDigit (c : Char) : Bool :=
  (('0' ≤ c) && (c ≤ '9')) || (('A' ≤ c) && (c ≤ 'F')) || (('a' ≤ c) && (c ≤ 'f'))

/-- The zod udid schema regex: five dash-joined hexadecimal groups of sizes
8-4-4-4-12, i.e. length 36 with dashes exactly at indices 8, 13, 18, 23 and
hex digits everywhere else. -/
def isUdidFormat (s : String) : Bool :=
  (s.data.length == 36) &&
  List.all (List.enum s.data) (fun p =>
    if p.1 == 8 || p.1 == 13 || p.1 == 18 || p.1 == 23 then p.2 == '-'
    else isHexDigit p.2)

/-- `attach_simulator` tool. The zod schema validates the udid against the
UUID regex before the handler runs (the SDK rejects the request with a
validation error, so the registry is untouched and no external call is
issued; the validation message text is the SDK's, fixed here as a model
constant). The handler then checks the session id, queries the device list
(the `devices` parameter; the query is recorded as an `ExtCall.listDevices`),
and registers an un-owned handle when the device is found and booted. -/
def attach_simulator (reg : Registry) (id udid : String)
    (devices : List DeviceRecord) : ToolResult × Registry × List ExtCall :=
  if !isUdidFormat udid then
    ({ isError := true
       text := "Invalid arguments: udid does not match the required pattern" },
     reg, [])
  else
    match lookupReg reg id with
    | some existing =>
        ({ isError := true
           text := errorWithTroubleshooting ("Error attaching to simulator: " ++
             ("Session \"" ++ id ++ "\" is already attached to simulator \"" ++
              existing.name ++ "\" (" ++ existing.udid ++
              "). Call destroy_simulator first.")) },
         reg, [])
    | none =>
      match List.find? (fun d => d.udid == udid) devices with
      | none =>
          ({ isError := true
             text := errorWithTroubleshooting ("Error attaching to simulator: " ++
               ("No simulator found with UDID \"" ++ udid ++ "\".")) },
           reg, [ExtCall.listDevices])
      | some found =>
        if !(found.state == "Booted") then
          ({ isError := true
             text := errorWithTroubleshooting ("Error attaching to simulator: " ++
               ("Simulator \"" ++ found.name ++ "\" (" ++ udid ++
                ") is not booted (state: " ++ found.state ++ ").")) },
           reg, [ExtCall.listDevices])
        else
          ({ isError := false
             text := "Attached to simulator: \"" ++ found.name ++ "\" (" ++
               udid ++ ")" },
           insertReg reg id
             { udid := udid, name := found.name, owned := false
               orientation := Orientation.auto },
           [ExtCall.listDevices])

-- ## cleanupAllSimulators (Shutdown Sweeper)

/-- The external teardown calls issued by the sweep loop of
`cleanupAllSimulators`: shutdown then delete for each owned entry in
registry order, nothing for un-owned entries (errors are ignored, so the
loop always continues). -/
def cleanupCalls : Registry → List ExtCall
  | [] => []
  | (_, h) :: rest =>
      (if h.owned then [ExtCall.shutdown h.udid, ExtCall.simDelete h.udid]
       else []) ++ cleanupCalls rest

/-- `cleanupAllSimulators`: iterates the registry issuing teardown for owned
entries, then `managedSimulators.clear()`. -/
def cleanupAllSimulators (reg : Registry) : List ExtCall × Registry :=
  (cleanupCalls reg, [])

-- ## transformElementTree

/-- A node of the describe-all JSON tree, as the transform reads it: an
optional `frame`, an optional `AXFrame` string, the remaining fields (opaque
key-value pairs, spread-copied untouched), and an optional `children`
array. -/
inductive AXNode where
  | mk (frame : Option Frame) (axFrame : Option String)
       (other : List (String × String)) (children : Option (List AXNode))

def AXNode.frame : AXNode → Option Frame
  | AXNode.mk f _ _ _ => f

def AXNode.axFrame : AXNode → Option String
  | AXNode.mk _ a _ _ => a

def AXNode.other : AXNode → List (String × String)
  | AXNode.mk _ _ o _ => o

def AXNode.children : AXNode → Option (List AXNode)
  | AXNode.mk _ _ _ c => c

/-- `formatAXFrame`: serializes a frame in the AXFrame literal form. -/
def formatAXFrame (frame : Frame) : String :=
  "\x7b\x7b" ++ toString frame.x ++ ", " ++ toString frame.y ++ "\x7d, \x7b" ++
    toString frame.width ++ ", " ++ toString frame.height ++ "\x7d\x7d"

mutual

/-- One node of `transformElementTree`'s `elements.map`: the frame is
rewritten (and `AXFrame` re-annotated) only when present with a truthy
(nonzero) width or height; the other fields are the spread copy; children,
when present, are transformed recursively. -/
def transformElement (o : Orientation) (sw sh : ℚ) : AXNode → AXNode
  | AXNode.mk f ax other ch =>
    match f with
    | some fr =>
      if decide (fr.width ≠ 0) || decide (fr.height ≠ 0) then
        AXNode.mk (some (transformFrame fr o sw sh))
          (some (formatAXFrame (transformFrame fr o sw sh))) other
          (transformChildren o sw sh ch)
      else
        AXNode.mk (some fr) ax other (transformChildren o sw sh ch)
    | none => AXNode.mk none ax other (transformChildren o sw sh ch)

/-- The `el.children && Array.isArray(el.children)` recursion: an absent
children field stays absent. -/
def transformChildren (o : Orientation) (sw sh : ℚ) :
    Option (List AXNode) → Option (List AXNode)
  | none => none
  | some l => some (transformElementTree o sw sh l)

/-- `transformElementTree`: `elements.map(el => ...)`. -/
def transformElementTree (o : Orientation) (sw sh : ℚ) :
    List AXNode → List AXNode
  | [] => []
  | x :: xs => transformElement o sw sh x :: transformElementTree o sw sh xs

end

/-- Whether an external call outcome is a success. -/
def exceptOk {ε α : Type} : Except ε α → Bool
  | Except.ok _ => true
  | Except.error _ => false

/-- The handle `start_simulator` inserts on success: the created udid, the
synthesized device name, `owned = true`, orientation `auto`. -/
def startHandle (id : String) (type? : Option String) (udid : String) : SimHandle :=
  { udid := udid
    name := id ++ "_" ++ replaceWsWithDash (type?.getD ("iPhone"))
    owned := true
    orientation := Orientation.auto }

/-- The inverse orientation named by the round-trip law: LandscapeRight
and LandscapeLeft are mutually inverse, UpsideDown is its own inverse
(Portrait and Auto are identity transforms, their own inverses). -/
def inverseOrientation : Orientation → Orientation
  | Orientation.landscape_right => Orientation.landscape_left
  | Orientation.landscape_left => Orientation.landscape_right
  | o => o

/-- C4: round-trip law. Transforming by a non-Portrait orientation with the
rotated frame's screen dimensions (W, H) and then by its inverse orientation
with the dimensions of the portrait frame the result lives in ((H, W) for the
landscape pair, (W, H) for UpsideDown) restores the original rectangle. -/
theorem transformFrame_roundtrip (r : Frame) (W H : ℚ) :
    transformFrame (transformFrame r Orientation.landscape_right W H)
      Orientation.landscape_left H W = r ∧
    transformFrame (transformFrame r Orientation.landscape_left W H)
      Orientation.landscape_right H W = r ∧
    transformFrame (transformFrame r Orientation.upside_down W H)
      Orientation.upside_down W H = r ∧
    transformFrame (transformFrame r Orientation.auto W H)
      (inverseOrientation Orientation.auto) W H = r := by
  obtain ⟨x, y, w, h⟩ := r
  refine ⟨?_, ?_, ?_, ?_⟩ <;>
    simp only [transformFrame, inverseOrientation, Frame.mk.injEq] <;>
    refine ⟨by first | rfl | ring, by first | rfl | ring,
      by first | rfl | ring, by first | rfl | ring⟩

/-- C9: every orientation's frame transform preserves area: the landscape
cases swap width and height, the others keep them, so width' * height' =
width * height always. -/
theorem transformFrame_preserves_area (r : Frame) (o : Orientation) (W H : ℚ) :
    (transformFrame r o W H).width * (transformFrame r o W H).height =
      r.width * r.height := by
  cases o <;> simp only [transformFrame] <;> ring

-- ## Registry lemmas

theorem lookupReg_removeReg (reg : Registry) (id : String) :
    lookupReg (removeReg reg id) id = none := by
  simp only [lookupReg, removeReg, Option.map_eq_none', List.find?_eq_none,
    List.mem_filter]
  rintro ⟨a, b⟩ ⟨_, hp⟩
  simpa using hp

theorem any_key_false_of_lookup_none (reg : Registry) (id : String)
    (h0 : lookupReg reg id = none) :
    List.any reg (fun e => e.1 == id) = false := by
  have h1 : ∀ (a : String) (b : SimHandle), (a, b) ∈ reg → ¬ a = id := by
    simpa [lookupReg, List.find?_eq_none] using h0
  rw [List.any_eq_false]
  rintro ⟨a, b⟩ hab
  simpa using h1 a b hab

theorem insertReg_absent (reg : Registry) (id : String) (h : SimHandle)
    (h0 : lookupReg reg id = none) : insertReg reg id h = reg ++ [(id, h)] := by
  unfold insertReg
  rw [any_key_false_of_lookup_none reg id h0]
  rfl

theorem lookupReg_append_single (reg : Registry) (id : String) (h : SimHandle)
    (h0 : lookupReg reg id = none) :
    lookupReg (reg ++ [(id, h)]) id = some h := by
  unfold lookupReg at h0 ⊢
  have hf : List.find? (fun e => e.1 == id) reg = none := by
    cases hf : List.find? (fun e => e.1 == id) reg with
    | none => rfl
    | some v => rw [hf] at h0; simp at h0
  rw [List.find?_append, hf]
  simp [List.find?_cons]

-- ## Substring lemmas

theorem strIncludes_mid (p mid s : String) : strIncludes (p ++ mid ++ s) mid :=
  ⟨p, s, String.append_assoc p mid s⟩

theorem strIncludes_append_right (hay t sub : String)
    (h : strIncludes hay sub) : strIncludes (hay ++ t) sub := by
  obtain ⟨p, s, rfl⟩ := h
  exact ⟨p, s ++ t, by rw [String.append_assoc, String.append_assoc]⟩

theorem strIncludes_append_left (t hay sub : String)
    (h : strIncludes hay sub) : strIncludes (t ++ hay) sub := by
  obtain ⟨p, s, rfl⟩ := h
  exact ⟨t ++ p, s, by rw [String.append_assoc]⟩

theorem alreadyRunningMsg_includes_name (id : String) (h : SimHandle) :
    strIncludes (alreadyRunningMsg id h) h.name := by
  unfold alreadyRunningMsg
  exact strIncludes_append_right _ _ _
    (strIncludes_append_right _ _ _ (strIncludes_mid _ _ _))

theorem alreadyRunningMsg_includes_udid (id : String) (h : SimHandle) :
    strIncludes (alreadyRunningMsg id h) h.udid := by
  unfold alreadyRunningMsg
  exact strIncludes_mid _ _ _

theorem startError_includes (msg sub : String) (h : strIncludes msg sub) :
    strIncludes (startError msg).text sub := by
  unfold startError errorWithTroubleshooting
  exact strIncludes_append_right _ _ _
    (strIncludes_append_right _ _ _ (strIncludes_append_left _ _ _ h))

-- ## Claim theorems

/-- C7: `findLatestRuntime` fails with the NoAvailableRuntime error exactly
when the catalog filtered to available iOS entries (in the catalog's native
order) is empty, and otherwise returns the identifier of the last entry of
that filtered sub-list. -/
theorem findLatestRuntime_last_available (runtimes : List RuntimeRecord) :
    (findLatestRuntime runtimes =
        Except.error ("No available iOS runtimes found. Install one via Xcode.") ↔
      List.filter (fun r => r.isAvailable && strStartsWith r.name ("iOS"))
        runtimes = []) ∧
    (∀ r, (List.filter (fun r => r.isAvailable && strStartsWith r.name ("iOS"))
        runtimes).getLast? = some r →
      findLatestRuntime runtimes = Except.ok r.identifier) := by
  constructor
  · unfold findLatestRuntime
    constructor
    · intro h
      by_cases h0 : (List.filter
          (fun r => r.isAvailable && strStartsWith r.name ("iOS")) runtimes).length = 0
      · exact List.length_eq_zero.mp h0
      · rw [dif_neg h0] at h
        exact absurd h (by simp)
    · intro h
      rw [dif_pos (by rw [h]; rfl)]
  · intro r hr
    unfold findLatestRuntime
    have hne : List.filter (fun r => r.isAvailable && strStartsWith r.name ("iOS"))
        runtimes ≠ [] := by
      intro hh
      rw [hh] at hr
      exact absurd hr (by simp)
    have h0 : ¬ (List.filter (fun r => r.isAvailable && strStartsWith r.name ("iOS"))
        runtimes).length = 0 := by
      simpa [List.length_eq_zero] using hne
    rw [dif_neg h0]
    have hlast : (List.filter (fun r => r.isAvailable && strStartsWith r.name ("iOS"))
        runtimes).getLast hne = r := by
      rw [List.getLast?_eq_getLast _ hne] at hr
      exact Option.some.inj hr
    rw [← hlast, List.getLast_eq_getElem]
    rfl

/-- C7 witness: a two-entry catalog with both entries available yields the
identifier of the later (last) entry. -/
theorem findLatestRuntime_last_available_witness :
    findLatestRuntime
        [⟨"iOS 16.0", "com.apple.iOS-16-0", true⟩,
         ⟨"iOS 17.0", "com.apple.iOS-17-0", true⟩] =
      Except.ok ("com.apple.iOS-17-0") :=
  (findLatestRuntime_last_available
      [⟨"iOS 16.0", "com.apple.iOS-16-0", true⟩,
       ⟨"iOS 17.0", "com.apple.iOS-17-0", true⟩]).2
    ⟨"iOS 17.0", "com.apple.iOS-17-0", true⟩ (by decide)

/-- C6: the Shutdown Sweeper issues external shutdown and delete for exactly
the owned registry entries, in registry order, issues nothing for un-owned
entries, and leaves the registry empty. -/
theorem cleanupAllSimulators_owned_only (reg : Registry) :
    (cleanupAllSimulators reg).1 =
      List.flatMap (List.filter (fun e => e.2.owned) reg)
        (fun e => [ExtCall.shutdown e.2.udid, ExtCall.simDelete e.2.udid]) ∧
    (cleanupAllSimulators reg).2 = [] := by
  refine ⟨?_, rfl⟩
  unfold cleanupAllSimulators
  induction reg with
  | nil => rfl
  | cons e t ih =>
    obtain ⟨i, h⟩ := e
    by_cases ho : h.owned <;>
      simp [cleanupCalls, List.filter_cons, ho] <;>
      simpa using ih

/-- C1 counterexample: a session whose owned simulator fails the external
shutdown call is still present in the registry after `destroy_simulator`
returns its teardown error, contradicting "the Registry no longer contains
that session id in every outcome". -/
theorem destroy_shutdown_failure_keeps_entry :
    ((destroy_simulator [(("s1"), ⟨"UD1", "dev1", true, Orientation.auto⟩)]
        ("s1") (Except.error ("shutdown failed")) (Except.ok ())).1.isError = true) ∧
    lookupReg (destroy_simulator [(("s1"), ⟨"UD1", "dev1", true, Orientation.auto⟩)]
        ("s1") (Except.error ("shutdown failed")) (Except.ok ())).2 ("s1") =
      some ⟨"UD1", "dev1", true, Orientation.auto⟩ :=
  ⟨rfl, rfl⟩

/-- C1 (amended): for an Active session, `destroy_simulator` removes the
registry entry exactly when the handle is un-owned or both external teardown
calls succeed; when shutdown or delete fails the error is reported and the
registry is left unchanged (the entry remains). -/
theorem destroy_registry_behavior (reg : Registry) (id : String)
    (sim : SimHandle) (sRes dRes : Except String Unit)
    (h : lookupReg reg id = some sim) :
    ((destroy_simulator reg id sRes dRes).1.isError = false →
      lookupReg (destroy_simulator reg id sRes dRes).2 id = none) ∧
    ((destroy_simulator reg id sRes dRes).1.isError = true →
      (destroy_simulator reg id sRes dRes).2 = reg) ∧
    ((destroy_simulator reg id sRes dRes).1.isError = true ↔
      sim.owned = true ∧ (exceptOk sRes = false ∨ exceptOk dRes = false)) := by
  unfold destroy_simulator
  rw [h]
  by_cases ho : sim.owned = true
  · cases sRes <;> cases dRes <;>
      simp [ho, destroyError, exceptOk, lookupReg_removeReg]
  · simp only [Bool.not_eq_true] at ho
    simp [ho, exceptOk, lookupReg_removeReg]

/-- C1 witness: destroying an owned session whose teardown succeeds removes
its registry entry. -/
theorem destroy_registry_behavior_witness :
    lookupReg (destroy_simulator
        [(("s1"), ⟨"UD1", "dev1", true, Orientation.auto⟩)] ("s1")
        (Except.ok ()) (Except.ok ())).2 ("s1") = none :=
  (destroy_registry_behavior
      [(("s1"), ⟨"UD1", "dev1", true, Orientation.auto⟩)] ("s1")
      ⟨"UD1", "dev1", true, Orientation.auto⟩
      (Except.ok ()) (Except.ok ()) rfl).1 rfl

/-- C10: a udid failing the 8-4-4-4-12 hexadecimal UUID format is rejected by
the schema validation before the handler runs: the result is an error, the
registry is unchanged, and no external call (in particular no device-list
query) is issued. -/
theorem attach_malformed_udid_rejected (reg : Registry) (id udid : String)
    (devices : List DeviceRecord) (h : isUdidFormat udid = false) :
    ((attach_simulator reg id udid devices).1.isError = true) ∧
    ((attach_simulator reg id udid devices).2.1 = reg) ∧
    ((attach_simulator reg id udid devices).2.2 = []) := by
  unfold attach_simulator
  rw [h]
  exact ⟨rfl, rfl, rfl⟩

/-- C10 witness: a malformed udid is rejected with the registry untouched and
no external call. -/
theorem attach_malformed_udid_rejected_witness :
    ((attach_simulator [(("s1"), ⟨"UD1", "dev1", true, Orientation.auto⟩)]
        ("s2") ("not-a-udid")
        [⟨"not-a-udid", "iPhone 15", "Booted"⟩]).1.isError = true) ∧
    ((attach_simulator [(("s1"), ⟨"UD1", "dev1", true, Orientation.auto⟩)]
        ("s2") ("not-a-udid")
        [⟨"not-a-udid", "iPhone 15", "Booted"⟩]).2.1 =
      [(("s1"), ⟨"UD1", "dev1", true, Orientation.auto⟩)]) ∧
    ((attach_simulator [(("s1"), ⟨"UD1", "dev1", true, Orientation.auto⟩)]
        ("s2") ("not-a-udid")
        [⟨"not-a-udid", "iPhone 15", "Booted"⟩]).2.2 = []) :=
  attach_malformed_udid_rejected _ _ _ _ (by decide)

/-- C2 counterexample: attaching (under a fresh session id) a booted device
whose udid is already registered under another session succeeds and creates a
second registry mapping to the same instanceId, instead of failing with a
DuplicateInstance error. -/
theorem attach_duplicate_instance_counterexample :
    ((attach_simulator
        [(("s1"), ⟨"00000000-0000-0000-0000-000000000000", "Existing", true,
          Orientation.auto⟩)]
        ("s2") ("00000000-0000-0000-0000-000000000000")
        [⟨"00000000-0000-0000-0000-000000000000", "iPhone 15", "Booted"⟩]).1.isError
      = false) ∧
    lookupReg (attach_simulator
        [(("s1"), ⟨"00000000-0000-0000-0000-000000000000", "Existing", true,
          Orientation.auto⟩)]
        ("s2") ("00000000-0000-0000-0000-000000000000")
        [⟨"00000000-0000-0000-0000-000000000000", "iPhone 15", "Booted"⟩]).2.1
      ("s1") =
      some ⟨"00000000-0000-0000-0000-000000000000", "Existing", true,
        Orientation.auto⟩ ∧
    lookupReg (attach_simulator
        [(("s1"), ⟨"00000000-0000-0000-0000-000000000000", "Existing", true,
          Orientation.auto⟩)]
        ("s2") ("00000000-0000-0000-0000-000000000000")
        [⟨"00000000-0000-0000-0000-000000000000", "iPhone 15", "Booted"⟩]).2.1
      ("s2") =
      some ⟨"00000000-0000-0000-0000-000000000000", "iPhone 15", false,
        Orientation.auto⟩ := by
  refine ⟨by decide, by decide, by decide⟩

/-- C2 (amended): `attach_simulator` rejects a request only when the session
id itself already has a handle; it performs no duplicate-instanceId check, so
whenever the session id is absent and the (well-formed) udid names a booted
device, the un-owned handle is inserted regardless of any other session
already mapping to the same instanceId. -/
theorem attach_no_duplicate_instance_check (reg : Registry) (id udid : String)
    (devices : List DeviceRecord) (found : DeviceRecord)
    (hu : isUdidFormat udid = true)
    (h0 : lookupReg reg id = none)
    (hf : List.find? (fun d => d.udid == udid) devices = some found)
    (hb : found.state = "Booted") :
    ((attach_simulator reg id udid devices).1.isError = false) ∧
    ((attach_simulator reg id udid devices).2.1 =
      insertReg reg id
        { udid := udid, name := found.name, owned := false
          orientation := Orientation.auto }) := by
  unfold attach_simulator
  rw [hu, h0, hf]
  have hb2 : (found.state == "Booted") = true := by
    simp [hb]
  simp [hb2]

/-- C2 witness: the amended behavior at a concrete duplicate-instance input:
session s1 already maps to the udid and attach for s2 still succeeds and
inserts. -/
theorem attach_no_duplicate_instance_check_witness :
    ((attach_simulator
        [(("s1"), ⟨"00000000-0000-0000-0000-000000000000", "Existing", true,
          Orientation.auto⟩)]
        ("s2") ("00000000-0000-0000-0000-000000000000")
        [⟨"00000000-0000-0000-0000-000000000000", "iPhone 15", "Booted"⟩]).1.isError
      = false) ∧
    ((attach_simulator
        [(("s1"), ⟨"00000000-0000-0000-0000-000000000000", "Existing", true,
          Orientation.auto⟩)]
        ("s2") ("00000000-0000-0000-0000-000000000000")
        [⟨"00000000-0000-0000-0000-000000000000", "iPhone 15", "Booted"⟩]).2.1 =
      insertReg
        [(("s1"), ⟨"00000000-0000-0000-0000-000000000000", "Existing", true,
          Orientation.auto⟩)]
        ("s2")
        { udid := "00000000-0000-0000-0000-000000000000", name := "iPhone 15"
          owned := false, orientation := Orientation.auto }) :=
  attach_no_duplicate_instance_check
    [(("s1"), ⟨"00000000-0000-0000-0000-000000000000", "Existing", true,
      Orientation.auto⟩)]
    ("s2") ("00000000-0000-0000-0000-000000000000")
    [⟨"00000000-0000-0000-0000-000000000000", "iPhone 15", "Booted"⟩]
    ⟨"00000000-0000-0000-0000-000000000000", "iPhone 15", "Booted"⟩
    (by decide) rfl rfl rfl

/-- C3 counterexample: with the session absent and external create and boot
both succeeding, a failing "bring to foreground" (`open -a Simulator.app`)
call makes `start_simulator` report an error and leave the registry without
the session's handle, contradicting "non-fatal ... still inserts the handle
and reports success". -/
theorem start_foreground_failure_counterexample :
    ((start_simulator [] ("s1") none [⟨"iPhone 16 Pro", "dtid"⟩]
        [⟨"iOS 17.0", "rtid", true⟩] (Except.ok ("UD1")) (Except.ok ())
        (Except.error ("open failed"))).1.isError = true) ∧
    ((start_simulator [] ("s1") none [⟨"iPhone 16 Pro", "dtid"⟩]
        [⟨"iOS 17.0", "rtid", true⟩] (Except.ok ("UD1")) (Except.ok ())
        (Except.error ("open failed"))).2 = []) :=
  ⟨rfl, rfl⟩

/-- C3 (amended): when create and boot succeed but the "bring to foreground"
step fails, `start_simulator` treats the failure like any other thrown error:
it reports an error and inserts nothing, leaving the registry unchanged. -/
theorem start_foreground_failure_fatal (reg : Registry) (id : String)
    (type? : Option String) (dts : List DeviceTypeRecord)
    (rts : List RuntimeRecord) (udid e : String) (dt : DeviceTypeRecord)
    (rt : String)
    (h0 : lookupReg reg id = none)
    (hdt : findDeviceType (type?.getD ("iPhone")) dts = Except.ok dt)
    (hrt : findLatestRuntime rts = Except.ok rt) :
    ((start_simulator reg id type? dts rts (Except.ok udid) (Except.ok ())
        (Except.error e)).1.isError = true) ∧
    ((start_simulator reg id type? dts rts (Except.ok udid) (Except.ok ())
        (Except.error e)).2 = reg) := by
  unfold start_simulator
  rw [h0]
  simp [hdt, hrt, startError]

/-- C3 witness: the amended behavior at a concrete input with a failing
foreground step. -/
theorem start_foreground_failure_fatal_witness :
    ((start_simulator [] ("s1") none [⟨"iPhone 16 Pro", "dtid"⟩]
        [⟨"iOS 17.0", "rtid", true⟩] (Except.ok ("UD1")) (Except.ok ())
        (Except.error ("boom"))).1.isError = true) ∧
    ((start_simulator [] ("s1") none [⟨"iPhone 16 Pro", "dtid"⟩]
        [⟨"iOS 17.0", "rtid", true⟩] (Except.ok ("UD1")) (Except.ok ())
        (Except.error ("boom"))).2 = []) :=
  start_foreground_failure_fatal [] ("s1") none _ _ _ _
    ⟨"iPhone 16 Pro", "dtid"⟩ ("rtid") rfl rfl rfl

/-- C5: a first successful `start_simulator` inserts exactly the new handle;
a second `start_simulator` for the same session (with any collaborator
results) fails with the AlreadyActive error whose message includes the
existing handle's display name and udid, and leaves the registry exactly as
the first start left it. -/
theorem start_twice_alreadyActive (reg : Registry) (id : String)
    (type? : Option String) (dts : List DeviceTypeRecord)
    (rts : List RuntimeRecord) (udid : String) (dt : DeviceTypeRecord)
    (rt : String)
    (h0 : lookupReg reg id = none)
    (hdt : findDeviceType (type?.getD ("iPhone")) dts = Except.ok dt)
    (hrt : findLatestRuntime rts = Except.ok rt)
    (type2? : Option String) (dts2 : List DeviceTypeRecord)
    (rts2 : List RuntimeRecord) (cr2 : Except String String)
    (br2 or2 : Except String Unit) :
    ((start_simulator reg id type? dts rts (Except.ok udid) (Except.ok ())
        (Except.ok ())).1.isError = false) ∧
    ((start_simulator reg id type? dts rts (Except.ok udid) (Except.ok ())
        (Except.ok ())).2 = reg ++ [(id, startHandle id type? udid)]) ∧
    ((start_simulator (reg ++ [(id, startHandle id type? udid)]) id type2?
        dts2 rts2 cr2 br2 or2).1.isError = true) ∧
    strIncludes (start_simulator (reg ++ [(id, startHandle id type? udid)]) id
        type2? dts2 rts2 cr2 br2 or2).1.text (startHandle id type? udid).name ∧
    strIncludes (start_simulator (reg ++ [(id, startHandle id type? udid)]) id
        type2? dts2 rts2 cr2 br2 or2).1.text (startHandle id type? udid).udid ∧
    ((start_simulator (reg ++ [(id, startHandle id type? udid)]) id type2?
        dts2 rts2 cr2 br2 or2).2 = reg ++ [(id, startHandle id type? udid)]) := by
  have hl := lookupReg_append_single reg id (startHandle id type? udid) h0
  have hfirst : (start_simulator reg id type? dts rts (Except.ok udid)
      (Except.ok ()) (Except.ok ())) =
      ({ isError := false
         text := "Simulator started: \"" ++ (startHandle id type? udid).name ++
           "\" (" ++ dt.name ++ ", " ++ udid ++ ")" },
       insertReg reg id (startHandle id type? udid)) := by
    unfold start_simulator
    rw [h0]
    simp only [hdt, hrt]
    rfl
  have hsecond : (start_simulator (reg ++ [(id, startHandle id type? udid)])
      id type2? dts2 rts2 cr2 br2 or2) =
      (startError (alreadyRunningMsg id (startHandle id type? udid)),
       reg ++ [(id, startHandle id type? udid)]) := by
    unfold start_simulator
    rw [hl]
  refine ⟨?_, ?_, ?_, ?_, ?_, ?_⟩
  · rw [hfirst]
  · rw [hfirst]
    exact insertReg_absent reg id _ h0
  · rw [hsecond]
    rfl
  · rw [hsecond]
    exact startError_includes _ _ (alreadyRunningMsg_includes_name _ _)
  · rw [hsecond]
    exact startError_includes _ _ (alreadyRunningMsg_includes_udid _ _)
  · rw [hsecond]

/-- C5 witness: the double-start scenario at a concrete input: the first
start succeeds and registers the handle, the second fails and the registry
still holds exactly the first handle. -/
theorem start_twice_alreadyActive_witness :
    ((start_simulator [] ("s1") none [⟨"iPhone 16 Pro", "dtid"⟩]
        [⟨"iOS 17.0", "rtid", true⟩] (Except.ok ("UD1")) (Except.ok ())
        (Except.ok ())).1.isError = false) ∧
    ((start_simulator [] ("s1") none [⟨"iPhone 16 Pro", "dtid"⟩]
        [⟨"iOS 17.0", "rtid", true⟩] (Except.ok ("UD1")) (Except.ok ())
        (Except.ok ())).2 = [] ++ [(("s1"), startHandle ("s1") none ("UD1"))]) ∧
    ((start_simulator ([] ++ [(("s1"), startHandle ("s1") none ("UD1"))])
        ("s1") none [] [] (Except.error ("x")) (Except.ok ())
        (Except.ok ())).1.isError = true) ∧
    strIncludes (start_simulator ([] ++ [(("s1"), startHandle ("s1") none ("UD1"))])
        ("s1") none [] [] (Except.error ("x")) (Except.ok ())
        (Except.ok ())).1.text (startHandle ("s1") none ("UD1")).name ∧
    strIncludes (start_simulator ([] ++ [(("s1"), startHandle ("s1") none ("UD1"))])
        ("s1") none [] [] (Except.error ("x")) (Except.ok ())
        (Except.ok ())).1.text (startHandle ("s1") none ("UD1")).udid ∧
    ((start_simulator ([] ++ [(("s1"), startHandle ("s1") none ("UD1"))])
        ("s1") none [] [] (Except.error ("x")) (Except.ok ())
        (Except.ok ())).2 = [] ++ [(("s1"), startHandle ("s1") none ("UD1"))]) :=
  start_twice_alreadyActive [] ("s1") none [⟨"iPhone 16 Pro", "dtid"⟩]
    [⟨"iOS 17.0", "rtid", true⟩] ("UD1") ⟨"iPhone 16 Pro", "dtid"⟩ ("rtid")
    rfl rfl rfl none [] [] (Except.error ("x")) (Except.ok ()) (Except.ok ())

-- ## Tree-transform lemmas

theorem transformElement_no_frame (o : Orientation) (sw sh : ℚ)
    (ax : Option String) (other : List (String × String))
    (ch : Option (List AXNode)) :
    transformElement o sw sh (AXNode.mk none ax other ch) =
      AXNode.mk none ax other (transformChildren o sw sh ch) := by
  simp [transformElement]

theorem transformElement_degenerate (o : Orientation) (sw sh : ℚ) (fr : Frame)
    (ax : Option String) (other : List (String × String))
    (ch : Option (List AXNode)) (hw : fr.width = 0) (hh : fr.height = 0) :
    transformElement o sw sh (AXNode.mk (some fr) ax other ch) =
      AXNode.mk (some fr) ax other (transformChildren o sw sh ch) := by
  simp [transformElement, hw, hh]

theorem transformElement_live (o : Orientation) (sw sh : ℚ) (fr : Frame)
    (ax : Option String) (other : List (String × String))
    (ch : Option (List AXNode)) (h : fr.width ≠ 0 ∨ fr.height ≠ 0) :
    transformElement o sw sh (AXNode.mk (some fr) ax other ch) =
      AXNode.mk (some (transformFrame fr o sw sh))
        (some (formatAXFrame (transformFrame fr o sw sh))) other
        (transformChildren o sw sh ch) := by
  rcases h with h | h <;> simp [transformElement, h]

theorem transformChildren_eq_map (o : Orientation) (sw sh : ℚ)
    (ch : Option (List AXNode)) :
    transformChildren o sw sh ch =
      Option.map (fun cl => transformElementTree o sw sh cl) ch := by
  cases ch <;> simp [transformChildren]

theorem transformElementTree_eq_map (o : Orientation) (sw sh : ℚ)
    (l : List AXNode) :
    transformElementTree o sw sh l =
      List.map (fun el => transformElement o sw sh el) l := by
  induction l with
  | nil => rfl
  | cons x xs ih => simp [transformElementTree, ih]

/-- C8: the tree transform rewrites only the frame (and its AXFrame string
annotation) of nodes whose frame is present with nonzero width or height;
nodes without a frame or with a 0-by-0 frame keep frame and annotation
untouched; the other fields pass through spread-copied, and the node list
and children are mapped in order (structure preserved). -/
theorem transformElementTree_frame_effect (o : Orientation) (sw sh : ℚ)
    (f : Option Frame) (ax : Option String) (other : List (String × String))
    (ch : Option (List AXNode)) (l : List AXNode) :
    ((transformElement o sw sh (AXNode.mk f ax other ch)).other = other) ∧
    ((transformElement o sw sh (AXNode.mk f ax other ch)).children =
      Option.map (fun cl => transformElementTree o sw sh cl) ch) ∧
    (f = none →
      (transformElement o sw sh (AXNode.mk f ax other ch)).frame = none ∧
      (transformElement o sw sh (AXNode.mk f ax other ch)).axFrame = ax) ∧
    (∀ fr, f = some fr → fr.width = 0 → fr.height = 0 →
      (transformElement o sw sh (AXNode.mk f ax other ch)).frame = some fr ∧
      (transformElement o sw sh (AXNode.mk f ax other ch)).axFrame = ax) ∧
    (∀ fr, f = some fr → (fr.width ≠ 0 ∨ fr.height ≠ 0) →
      (transformElement o sw sh (AXNode.mk f ax other ch)).frame =
        some (transformFrame fr o sw sh) ∧
      (transformElement o sw sh (AXNode.mk f ax other ch)).axFrame =
        some (formatAXFrame (transformFrame fr o sw sh))) ∧
    (transformElementTree o sw sh l =
      List.map (fun el => transformElement o sw sh el) l) := by
  refine ⟨?_, ?_, ?_, ?_, ?_, transformElementTree_eq_map o sw sh l⟩
  · cases f with
    | none =>
      rw [transformElement_no_frame]
      rfl
    | some fr =>
      by_cases hz : fr.width = 0 ∧ fr.height = 0
      · rw [transformElement_degenerate o sw sh fr ax other ch hz.1 hz.2]
        rfl
      · rw [transformElement_live o sw sh fr ax other ch (by tauto)]
        rfl
  · cases f with
    | none =>
      rw [transformElement_no_frame, transformChildren_eq_map]
      rfl
    | some fr =>
      by_cases hz : fr.width = 0 ∧ fr.height = 0
      · rw [transformElement_degenerate o sw sh fr ax other ch hz.1 hz.2,
          transformChildren_eq_map]
        rfl
      · rw [transformElement_live o sw sh fr ax other ch (by tauto),
          transformChildren_eq_map]
        rfl
  · rintro rfl
    rw [transformElement_no_frame]
    exact ⟨rfl, rfl⟩
  · rintro fr rfl hw hh
    rw [transformElement_degenerate o sw sh fr ax other ch hw hh]
    exact ⟨rfl, rfl⟩
  · rintro fr rfl hnz
    rw [transformElement_live o sw sh fr ax other ch hnz]
    exact ⟨rfl, rfl⟩

/-- C8 witness: at a concrete landscape input, a degenerate 0-by-0 frame
passes through with its annotation untouched, while a node with a nonzero
frame has its frame rewritten. -/
theorem transformElementTree_frame_effect_witness :
    ((transformElement Orientation.landscape_right 844 390
        (AXNode.mk (some ⟨0, 0, 0, 0⟩) none [(("AXLabel"), ("Hi"))] none)).frame =
      some ⟨0, 0, 0, 0⟩) ∧
    ((transformElement Orientation.landscape_right 844 390
        (AXNode.mk (some ⟨10, 20, 100, 50⟩) none [] none)).frame =
      some (transformFrame ⟨10, 20, 100, 50⟩ Orientation.landscape_right 844 390)) :=
  ⟨((transformElementTree_frame_effect Orientation.landscape_right 844 390
      (some ⟨0, 0, 0, 0⟩) none [(("AXLabel"), ("Hi"))] none []).2.2.2.1
      ⟨0, 0, 0, 0⟩ rfl rfl rfl).1,
   ((transformElementTree_frame_effect Orientation.landscape_right 844 390
      (some ⟨10, 20, 100, 50⟩) none [] none []).2.2.2.2.1
      ⟨10, 20, 100, 50⟩ rfl (Or.inr (by norm_num))).1⟩

end IosSimMcp
